import Mathlib

/-!
Verification of the BMI ctypes bridge (`bmi/wrapper.py`, `bmi/api.py`).

The Python source is shallowly embedded: the filesystem is modelled as the
list of existing file paths, the process working directory and the class-level
`known_paths` list are passed as explicit state, and native library entry
points are modelled as explicit inputs (their return values) or as call
traces.  Machine floats (`c_double`) are modelled as rationals.
-/

namespace BmiPy

/-- The three results of `platform.system()` the source distinguishes. -/
inductive Platform
  | Linux
  | Darwin
  | Windows
deriving DecidableEq

/-- Embeds `BMIWrapper._libname` (wrapper.py:252-261): platform-specific
shared-library file name, `lib<engine>.so` / `lib<engine>.dylib` /
`<engine>.dll`. -/
def libname (plat : Platform) (engine : String) : String :=
  let pre : String := if plat = Platform.Windows then "" else "lib"
  let suf : String :=
    if plat = Platform.Windows then ".dll"
    else if plat = Platform.Darwin then ".dylib"
    else ".so"
  pre ++ engine ++ suf

/-- True when the path begins with the two characters `~/`. -/
def startsWithTildeSlash (path : String) : Bool :=
  match path.data with
  | '~' :: '/' :: _ => true
  | _ => false

/-- Embeds `os.path.expanduser` for the paths the source uses: a leading
`~` component is replaced by the home directory; other paths are returned
unchanged. -/
def expanduser (home : String) (path : String) : String :=
  if path = "~" then home
  else if startsWithTildeSlash path then home ++ String.mk (path.data.drop 1)
  else path

/-- True when the path's last character is `/`. -/
def endsWithSlash (path : String) : Bool :=
  match path.data.getLast? with
  | some '/' => true
  | _ => false

/-- Embeds `os.path.join(path, filename)` for the posix-style directory
paths the source uses (none of which end in a separator). -/
def pathJoin (path : String) (filename : String) : String :=
  if endsWithSlash path then path ++ filename else path ++ "/" ++ filename

/-- Embeds the class attribute `BMIWrapper.known_paths` (wrapper.py:222-230).
The source comment reads: "From very specific to generic. Local installs win,
and /opt/modelname wins over system installs." -/
def known_paths : List String :=
  [".", "~/local/lib", "~/.local/lib", "/usr/local/lib", "/usr/lib"]

/-- Embeds the `known_paths` mutation in `BMIWrapper.__init__`
(wrapper.py:249): `self.known_paths.append('/opt/{}/lib'.format(self.engine))`.
`known_paths` is a class-level list, so the append mutates state shared by
every instance; construction maps the shared list to its extension. -/
def construct_known_paths (engine : String) (paths : List String) : List String :=
  paths ++ ["/opt/" ++ engine ++ "/lib"]

/-- The path-separator of the platform's library search environment variable
(wrapper.py:280-288): `;` on Windows, `:` elsewhere. -/
def envSeparator (plat : Platform) : Char :=
  if plat = Platform.Windows then ';' else ':'

/-- Embeds Python `str.split(sep)` with a one-character separator. -/
def splitOnChar (sep : Char) : List Char → List String
  | [] => [""]
  | c :: cs =>
      let rest := splitOnChar sep cs
      if c = sep then "" :: rest
      else
        match rest with
        | r :: rs => (String.mk [c] ++ r) :: rs
        | [] => [String.mk [c]]

/-- Embeds the directory-list computation of `BMIWrapper._library_path`
(wrapper.py:290-298): environment-variable paths (when the variable is
non-empty) are prepended to `known_paths`, then every entry is
tilde-expanded. -/
def candidate_dirs (plat : Platform) (envLibPath : String) (home : String)
    (paths : List String) : List String :=
  let ks : List String :=
    if envLibPath ≠ "" then
      splitOnChar (envSeparator plat) envLibPath.data ++ paths
    else paths
  ks.map (expanduser home)

/-- Embeds `possible_libraries` of `BMIWrapper._library_path`
(wrapper.py:300-301): each candidate directory joined with the platform
library file name. -/
def possible_libraries (plat : Platform) (envLibPath : String) (home : String)
    (paths : List String) (engine : String) : List String :=
  (candidate_dirs plat envLibPath home paths).map
    (fun p => pathJoin p (libname plat engine))

/-- Embeds `BMIWrapper._library_path` (wrapper.py:263-307).  `fs` is the
list of existing filesystem paths.  If the engine itself is an existing
file it is returned unchanged; otherwise the candidates are scanned in
order and the first existing one is returned; if none exists a
`RuntimeError` naming every candidate is raised. -/
def library_path (plat : Platform) (fs : List String) (envLibPath : String)
    (home : String) (paths : List String) (engine : String) :
    Except String String :=
  if fs.contains engine then Except.ok engine
  else
    match (possible_libraries plat envLibPath home paths engine).find?
        fs.contains with
    | some lib => Except.ok lib
    | none =>
        Except.error ("Library not found, looked in " ++
          String.intercalate ", "
            (possible_libraries plat envLibPath home paths engine))

/-- Maximum array rank, `MAXDIMS = 6` (wrapper.py:90). -/
def MAXDIMS : Nat := 6

/-- Process state a wrapper instance sees: the current working directory
and the `original_dir` captured by `__init__` (wrapper.py:245,
`self.original_dir = os.getcwd()`). -/
structure WrapperState where
  cwd : String
  original_dir : String
deriving DecidableEq

/-- Embeds the directory capture of `BMIWrapper.__init__` (wrapper.py:245):
the construction-time working directory becomes `original_dir`. -/
def construct_state (cwd : String) : WrapperState :=
  { cwd := cwd, original_dir := cwd }

/-- Embeds the `os.chdir(os.path.dirname(self.configfile) or '.')` step of
`BMIWrapper.initialize` (wrapper.py:347). -/
def initialize_chdir (configdir : String) (st : WrapperState) : WrapperState :=
  { st with cwd := configdir }

/-- Embeds `BMIWrapper.finalize` (wrapper.py:364-381).  `ierr` is the status
returned by the native `finalize` entry point.  The source changes back to
`original_dir` unconditionally and only afterwards raises a `RuntimeError`
when the status is non-zero. -/
def finalize (engine : String) (ierr : Int) (st : WrapperState) :
    Except String Unit × WrapperState :=
  let st' : WrapperState := { st with cwd := st.original_dir }
  if ierr ≠ 0 then
    (Except.error ("Finalizing model " ++ engine ++
      " failed with exit code " ++ toString ierr), st')
  else (Except.ok (), st')

/-- A call into the native library made by `BMIWrapper.update`. -/
inductive NativeCall
  | get_time_step
  | update (dt : ℚ)
deriving DecidableEq

/-- The native entry points `BMIWrapper.update` touches: `get_time_step`
writes the default timestep through an output parameter (wrapper.py:562-570)
and `update` returns a status code (wrapper.py:387-388). -/
structure NativeLib where
  time_step : ℚ
  update_ret : ℚ → Int

/-- Records a `get_time_step` native call and returns its output
(wrapper.py:562-570). -/
def call_get_time_step (lib : NativeLib) (tr : List NativeCall) :
    ℚ × List NativeCall :=
  (lib.time_step, tr ++ [NativeCall.get_time_step])

/-- Records a native `update(dt)` call and returns its status
(wrapper.py:392). -/
def call_update (lib : NativeLib) (dt : ℚ) (tr : List NativeCall) :
    Int × List NativeCall :=
  (lib.update_ret dt, tr ++ [NativeCall.update dt])

/-- Embeds `BMIWrapper.update` (wrapper.py:383-393): when `dt == -1` the
default timestep is fetched from the native `get_time_step` first; then the
native `update` is invoked and its status is RETURNED to the caller (the
source has no raise on this path). -/
def update (lib : NativeLib) (dt : ℚ) (tr : List NativeCall) :
    Except String Int × List NativeCall :=
  let (dt, tr) := if dt = -1 then call_get_time_step lib tr else (dt, tr)
  let (result, tr) := call_update lib dt tr
  (Except.ok result, tr)

/-- A host-side array: numpy dtype name plus flattened (C-contiguous)
contents, rationals standing in for the machine scalars. -/
structure NdArray where
  dtype : String
  data : List ℚ
deriving DecidableEq

/-- The arguments that reach the native `set_var` entry point: the name
buffer and the raw data pointer (modelled by the buffer contents). -/
structure SetVarCall where
  name : String
  ptr : NdArray
deriving DecidableEq

/-- Embeds `BMIWrapper.set_var` (wrapper.py:619-625): the variable name and
the raw data pointer of `var` are handed to the native `set_var`
unconditionally; the source performs no shape, element-count or dtype
check before the call. -/
def set_var (name : String) (var : NdArray) : Except String SetVarCall :=
  Except.ok { name := name, ptr := var }

/-- Written from the spec's words (§4.5 `setVar`), for comparison with
`set_var`: requires the value's element count and dtype to be
layout-compatible with the variable's current shape and type before the
native call, otherwise fails cleanly host-side. -/
def set_var_spec (shapeCount : Nat) (dtype : String) (name : String)
    (var : NdArray) : Except String SetVarCall :=
  if var.data.length = shapeCount ∧ var.dtype = dtype then
    Except.ok { name := name, ptr := var }
  else Except.error "TypeMismatchError"

/-- Embeds numpy fancy assignment `tmp.flat[index] = var`: the k-th value is
written at flattened position `index[k]`, in order. -/
def setFlat {α : Type} (arr : List α) : List Nat → List α → List α
  | i :: is, v :: vs => setFlat (arr.set i v) is vs
  | _, _ => arr

/-- Embeds the base-class `IBmi.set_var_index` (api.py:134-146): copy the
current value, assign `var` at the flattened indices, and write the whole
array back; the result is the new variable contents. -/
def IBmi_set_var_index {α : Type} (current : List α) (index : List Nat)
    (var : List α) : List α :=
  setFlat current index var

/-- Embeds `BMIWrapper.set_var_index` (wrapper.py:638-639).  Its body is
`super(self).set_var_index(name, index, var)`; in Python, one-argument
`super` requires a type, not an instance, so every call raises `TypeError`
before touching the variable. -/
def BMIWrapper_set_var_index {α : Type} (_current : List α)
    (_index : List Nat) (_var : List α) : Except String (List α) :=
  Except.error "TypeError: super() argument 1 must be type, not BMIWrapper"

/-- Embeds `BMIWrapper.get_var_shape` (wrapper.py:517-530): the native
`get_var_shape` fills a MAXDIMS-long int32 buffer (`shape_buf`), and the
method returns `tuple(shape[:rank])` — the buffer truncated to the reported
rank, with no check on the remaining entries. -/
def get_var_shape (rank : Nat) (shape_buf : List Int) : List Int :=
  shape_buf.take rank

/-- Embeds the shape-consistency portion of `BMIWrapper.get_var`
(wrapper.py:575-580): `rank = get_var_rank(...)`, `shape =
self.get_var_shape(name)` (the dummy `np.empty` buffer on line 577 is
immediately overwritten), then `assert sum(shape[rank:]) == 0`; on an
assertion failure `get_var` would raise, modelled by the error branch. -/
def get_var_shape_check (rank : Nat) (shape_buf : List Int) :
    Except String (List Int) :=
  let shape := get_var_shape rank shape_buf
  if (shape.drop rank).sum = 0 then Except.ok shape
  else Except.error "AssertionError"

/-- Metadata of one compound field, as output by the native
`inq_compound_field` (wrapper.py:440-470). -/
structure FieldMeta where
  fieldname : String
  fieldtype : String
  rank : Nat
  shape : List Int
deriving DecidableEq

/-- The native compound-type table: field count (`inq_compound`,
wrapper.py:429-438) and the per-field metadata indexed by the NATIVE
1-based field index. -/
structure CompoundLib where
  nfields : Nat
  field_at : Nat → FieldMeta

/-- Embeds `BMIWrapper.inq_compound_field` (wrapper.py:440-470): the host
index is translated by `index = c_int(index + 1)` before the native query,
so host index `i` reads the native table at `i + 1`. -/
def inq_compound_field (lib : CompoundLib) (index : Nat) : FieldMeta :=
  lib.field_at (index + 1)

/-- Embeds the field-enumeration loop of `BMIWrapper.make_compound_ctype`
(wrapper.py:479-484): `for i in range(nfields)` querying
`inq_compound_field` at each host index. -/
def compound_fields (lib : CompoundLib) : List FieldMeta :=
  (List.range lib.nfields).map (fun i => inq_compound_field lib i)

/-- The native 1-based indices queried when the host iterates
`0 .. nfields-1` through `inq_compound_field`. -/
def queried_native_indices (nfields : Nat) : List Nat :=
  (List.range nfields).map (fun i => i + 1)

/-- True exactly for the `update` constructor of `NativeCall`. -/
def isUpdateCall : NativeCall → Bool
  | NativeCall.update _ => true
  | NativeCall.get_time_step => false

lemma queried_native_indices_count (n j : Nat) :
    (queried_native_indices n).count j = if 1 ≤ j ∧ j ≤ n then 1 else 0 := by
  unfold queried_native_indices
  induction n with
  | zero =>
    simp only [List.range_zero, List.map_nil, List.count_nil]
    rw [if_neg (by omega)]
  | succ n ih =>
    rw [List.range_succ, List.map_append, List.count_append, ih]
    simp only [List.map_cons, List.map_nil]
    rcases eq_or_ne j (n + 1) with h | h
    · subst h
      rw [if_neg (show ¬(1 ≤ n + 1 ∧ n + 1 ≤ n) by omega),
        if_pos (show 1 ≤ n + 1 ∧ n + 1 ≤ n + 1 by omega)]
      simp
    · have hc : List.count j [n + 1] = 0 := by
        rw [List.count_eq_zero]
        simp only [List.mem_singleton]
        omega
      rw [hc]
      by_cases hj : 1 ≤ j ∧ j ≤ n
      · rw [if_pos hj, if_pos ⟨hj.1, by omega⟩]
      · rw [if_neg hj, if_neg (show ¬(1 ≤ j ∧ j ≤ n + 1) by omega)]

/-- C1: the claim places `/opt/<engine>/lib` before `/usr/local/lib` and
`/usr/lib` in the fallback search order (as does the source's own comment
"/opt/modelname wins over system installs"), but `__init__` APPENDS
`/opt/<engine>/lib` after `/usr/lib`: with the library present in both
`/opt/model/lib` and `/usr/lib`, resolution picks `/usr/lib/libmodel.so`. -/
theorem C1_opt_engine_dir_searched_after_system_libs :
    construct_known_paths "model" known_paths =
      [".", "~/local/lib", "~/.local/lib", "/usr/local/lib", "/usr/lib",
        "/opt/model/lib"] ∧
    library_path Platform.Linux
        ["/opt/model/lib/libmodel.so", "/usr/lib/libmodel.so"] "" "/home/u"
        (construct_known_paths "model" known_paths) "model" =
      Except.ok "/usr/lib/libmodel.so" :=
  ⟨rfl, rfl⟩

/-- C2: `finalize` restores the working directory captured at construction
unconditionally — the post-state's directory is always `original_dir` — and
for every non-zero native status it reports a `RuntimeError` carrying the
status code, produced only after the restoration. -/
theorem C2_finalize_restores_directory_before_error
    (engine : String) (ierr : Int) (st : WrapperState) :
    (finalize engine ierr st).2.cwd = st.original_dir ∧
    (ierr ≠ 0 →
      (finalize engine ierr st).1 =
        Except.error ("Finalizing model " ++ engine ++
          " failed with exit code " ++ toString ierr)) ∧
    (ierr = 0 → (finalize engine ierr st).1 = Except.ok ()) := by
  unfold finalize
  by_cases h : ierr = 0 <;> simp [h]

/-- C2 witness: native finalize status 1 in directory state
`cwd = "/model/dir"`, `original_dir = "/orig"`. -/
theorem C2_finalize_witness :
    (finalize "model" 1 ⟨"/model/dir", "/orig"⟩).2.cwd = "/orig" ∧
    (finalize "model" 1 ⟨"/model/dir", "/orig"⟩).1 =
      Except.error "Finalizing model model failed with exit code 1" := by
  have h := C2_finalize_restores_directory_before_error "model" 1
    ⟨"/model/dir", "/orig"⟩
  refine ⟨h.1, ?_⟩
  rw [h.2.1 (by decide)]
  rfl

/-- C3 counterexample: with a native `update` that returns status 1, the
wrapper's `update` hands the non-zero status back as an ordinary return
value (`Except.ok 1`) — no error is raised to the caller, contradicting the
claim that a non-zero status is surfaced as an UpdateError. -/
theorem C3_nonzero_update_status_returned_as_ok :
    (update { time_step := 1, update_ret := fun _ => 1 } 2 []).1 =
      Except.ok 1 :=
  rfl

/-- C3 amended: `update(dt)` returns the native status code to the caller
unchanged (as a normal return value, raising nothing), and invokes the
native `update` entry point exactly once per call — no retry. -/
theorem C3_update_returns_status_no_retry
    (lib : NativeLib) (dt : ℚ) (tr : List NativeCall) :
    (update lib dt tr).1 =
      Except.ok (lib.update_ret (if dt = -1 then lib.time_step else dt)) ∧
    (((update lib dt tr).2.drop tr.length).countP isUpdateCall) = 1 := by
  unfold update call_get_time_step call_update
  by_cases h : dt = -1 <;>
    simp [h, List.drop_left, List.append_assoc, isUpdateCall,
      List.drop_append, List.countP_cons]

/-- C4: the claim says the beyond-rank-entries-are-zero assertion in
`get_var` fires on a shape buffer with a non-zero entry at or past the
rank; in the source the assertion is applied to the tuple ALREADY truncated
to `rank` by `get_var_shape`, so it is vacuously true for every input and
the non-zero tail is silently dropped — here the check succeeds on every
buffer, in particular on rank 1 with buffer `[3,0,0,0,0,7]`. -/
theorem C4_shape_consistency_check_never_fires :
    (∀ (rank : Nat) (shape_buf : List Int),
      get_var_shape_check rank shape_buf =
        Except.ok (get_var_shape rank shape_buf)) ∧
    get_var_shape_check 1 [3, 0, 0, 0, 0, 7] = Except.ok [3] := by
  constructor
  · intro rank shape_buf
    unfold get_var_shape_check get_var_shape
    have h : (shape_buf.take rank).drop rank = [] :=
      List.drop_eq_nil_of_le (by simp)
    simp [h]
  · rfl

/-- C5: `BMIWrapper.set_var_index` is `super(self).set_var_index(...)`,
which raises `TypeError` in Python (one-argument `super` needs a type), so
the call on a rank-1 length-3 variable fails instead of writing the values
— while the inherited `IBmi.set_var_index` read-modify-write it was meant
to delegate to yields exactly the claimed `[a, y, b]`. -/
theorem C5_set_var_index_raises_type_error :
    BMIWrapper_set_var_index ([3, 2, 1] : List ℚ) [0, 2] [7, 9] =
      Except.error "TypeError: super() argument 1 must be type, not BMIWrapper" ∧
    IBmi_set_var_index ([3, 2, 1] : List ℚ) [0, 2] [7, 9] = [7, 2, 9] ∧
    ∀ (x y z a b : ℚ),
      IBmi_set_var_index [x, y, z] [0, 2] [a, b] = [a, y, b] := by
  refine ⟨rfl, rfl, fun x y z a b => ?_⟩
  simp [IBmi_set_var_index, setFlat, List.set]

/-- C6 counterexample: a length-1 buffer for a variable whose current shape
holds 3 elements is handed to the native `set_var` without any host-side
error (`set_var` succeeds), whereas the claimed validating behaviour
(`set_var_spec`, written from the spec) rejects it with a clean error. -/
theorem C6_undersized_buffer_passed_without_error :
    set_var "arr1" { dtype := "float64", data := [5] } =
      Except.ok { name := "arr1", ptr := { dtype := "float64", data := [5] } } ∧
    set_var_spec 3 "float64" "arr1" { dtype := "float64", data := [5] } =
      Except.error "TypeMismatchError" :=
  ⟨rfl, rfl⟩

/-- C6 amended: `set_var(name, value)` performs no host-side element-count
or dtype validation at all: for every name and buffer it passes the raw
pointer straight to the native `set_var` entry point. -/
theorem C6_set_var_performs_no_validation (name : String) (var : NdArray) :
    set_var name var = Except.ok { name := name, ptr := var } :=
  rfl

/-- C7: iterating host indices `0 .. N-1` through `inq_compound_field`
queries the native table at 1-based indices: the enumerated fields are
exactly the native fields at indices `1 .. N`, and each native index `j`
with `1 ≤ j ≤ N` is queried exactly once (anything else never). -/
theorem C7_compound_field_enumeration_exactly_once (lib : CompoundLib) :
    compound_fields lib =
      (queried_native_indices lib.nfields).map lib.field_at ∧
    ∀ j : Nat,
      (queried_native_indices lib.nfields).count j =
        if 1 ≤ j ∧ j ≤ lib.nfields then 1 else 0 := by
  constructor
  · unfold compound_fields queried_native_indices inq_compound_field
    rw [List.map_map]
    rfl
  · intro j
    exact queried_native_indices_count lib.nfields j

/-- C8: `update` with the sentinel `dt = -1` first queries the native
`get_time_step` and then invokes the native `update` with the resolved
default timestep; any other `dt` is passed through unchanged, with no
`get_time_step` query. -/
theorem C8_default_dt_resolved_before_native_update
    (lib : NativeLib) (dt : ℚ) (tr : List NativeCall) :
    update lib dt tr =
      (Except.ok (lib.update_ret (if dt = -1 then lib.time_step else dt)),
        tr ++
          (if dt = -1 then
            [NativeCall.get_time_step, NativeCall.update lib.time_step]
          else [NativeCall.update dt])) := by
  unfold update call_get_time_step call_update
  by_cases h : dt = -1 <;> simp [h]

/-- C9: when the engine name is an existing file it is returned unchanged;
when it is not and none of the candidate library paths exists, resolution
fails with an error whose message enumerates exactly the candidates, in
search order. -/
theorem C9_not_found_error_enumerates_all_candidates
    (plat : Platform) (fs : List String) (envLibPath home : String)
    (paths : List String) (engine : String) :
    (fs.contains engine = true →
      library_path plat fs envLibPath home paths engine = Except.ok engine) ∧
    (fs.contains engine = false →
      (∀ p ∈ possible_libraries plat envLibPath home paths engine,
        fs.contains p = false) →
      library_path plat fs envLibPath home paths engine =
        Except.error ("Library not found, looked in " ++
          String.intercalate ", "
            (possible_libraries plat envLibPath home paths engine))) := by
  constructor
  · intro h
    unfold library_path
    rw [if_pos h]
  · intro h hnone
    unfold library_path
    rw [if_neg (by rw [h]; simp)]
    have hfind :
        (possible_libraries plat envLibPath home paths engine).find?
          fs.contains = none := by
      rw [List.find?_eq_none]
      intro p hp
      rw [hnone p hp]
      simp
    rw [hfind]

/-- C9 witness: engine `"myengine.so"` as an existing file is returned
unchanged; engine `"model"` on an empty filesystem fails with the message
enumerating all six candidates in search order. -/
theorem C9_witness :
    library_path Platform.Linux ["myengine.so"] "" "/home/u" known_paths
        "myengine.so" =
      Except.ok "myengine.so" ∧
    library_path Platform.Linux [] "" "/home/u"
        (construct_known_paths "model" known_paths) "model" =
      Except.error ("Library not found, looked in " ++
        String.intercalate ", "
          (possible_libraries Platform.Linux "" "/home/u"
            (construct_known_paths "model" known_paths) "model")) ∧
    String.intercalate ", "
        (possible_libraries Platform.Linux "" "/home/u"
          (construct_known_paths "model" known_paths) "model") =
      "./libmodel.so, /home/u/local/lib/libmodel.so, " ++
        "/home/u/.local/lib/libmodel.so, /usr/local/lib/libmodel.so, " ++
        "/usr/lib/libmodel.so, /opt/model/lib/libmodel.so" := by
  refine ⟨?_, ?_, rfl⟩
  · exact (C9_not_found_error_enumerates_all_candidates Platform.Linux
      ["myengine.so"] "" "/home/u" known_paths "myengine.so").1 (by rfl)
  · exact (C9_not_found_error_enumerates_all_candidates Platform.Linux
      [] "" "/home/u" (construct_known_paths "model" known_paths) "model").2
      (by rfl) (fun p _ => by rfl)

/-- C10: `known_paths` is class-level state shared across constructions and
mutated by each: after constructing wrappers for engines `e1` then `e2`,
the search list used by the `e2` instance still holds `/opt/<e1>/lib`, so
later instances see the `/opt` entries of every earlier one. -/
theorem C10_known_paths_shared_and_mutated (e1 e2 : String) :
    ("/opt/" ++ e1 ++ "/lib") ∈
      construct_known_paths e2 (construct_known_paths e1 known_paths) ∧
    construct_known_paths e2 (construct_known_paths e1 known_paths) =
      known_paths ++ ["/opt/" ++ e1 ++ "/lib", "/opt/" ++ e2 ++ "/lib"] := by
  constructor
  · simp [construct_known_paths]
  · simp [construct_known_paths]

end BmiPy
